import Mathlib

/-
  Verification development for the RADIUS/Diameter gateway worker
  (extensions/app_radgw/rgw_worker.c).

  The file rgw_worker.c is modelled as follows: every call into an external
  collaborator (rgw_msg_auth_check, rgw_clients_check_dup, rgw_clients_check_origin,
  rgw_msg_create_base, rgw_plg_loop_req, malloc, fd_msg_send, radius_msg_new,
  rgw_plg_loop_ans, fd_msg_browse / fd_msg_avp_hdr, rgw_client_finish_send,
  fd_fifo_post) has its outcome supplied by an oracle record, and the body of
  the per-item loop of work_th, respectively the body of receive_diam_answer,
  is transcribed branch by branch into a pure function from the oracle to a
  record of counters: how many times each release primitive
  (rgw_msg_free, rgw_clients_dispose, fd_sess_destroy, fd_msg_free, free(pa))
  was invoked on this item, and which hand-offs happened.
-/

namespace RgwWorker

/-- Outcome of rgw_clients_check_dup(&msg, cli): the call can return an
error (fail), succeed while nulling the message because it was a duplicate
(dup, ownership of the message transfers to the collaborator), or succeed
leaving the message in place (ok). -/
inductive DupResult
  | fail
  | dup
  | ok
deriving DecidableEq, Repr

/-- Outcome of rgw_plg_loop_req(&msg, &session, &diam_msg, cli): error (fail),
success with the message nulled because a plugin fully handled it (consumed),
or success leaving the message in place (ok). In the ok case the oracle also
reports the state the plugins left behind: how many RADIUS attributes remain
unconsumed (msg.radius.attr_used at the completeness check), whether diam_msg
is still non-NULL, whether fd_msg_parse_rules on it succeeds, and whether the
session pointer is still non-NULL. -/
inductive PlgReqResult
  | fail
  | consumed
  | ok (attrRemaining : Nat) (diamPresent : Bool) (parseRulesOk : Bool) (sessionPresent : Bool)
deriving DecidableEq, Repr

/-- Outcome of fd_msg_send(&diam_msg, receive_diam_answer, pa): success (the
message, the pending_answer and its contents are handed to freeDiameter and
the callback will fire exactly once), or immediate failure. In the failure
case the oracle reports whether fd_msg_send left diam_msg non-NULL. -/
inductive SendResult
  | ok
  | fail (diamStillPresent : Bool)
deriving DecidableEq, Repr

/-- The oracle for one iteration of the work_th loop body: one outcome per
external call, in the order the calls appear in the source. -/
structure WorkOutcome where
  authOk : Bool
  dup : DupResult
  originOk : Bool
  createBaseOk : Bool
  plgReq : PlgReqResult
  paMallocOk : Bool
  send : SendResult
deriving DecidableEq, Repr

/-- Counters of what one iteration of the work_th loop body did to its item.
msgFree counts calls of rgw_msg_free on the inbound RADIUS message performed
by the worker itself; msgTransferred records that ownership of the message
left the worker by a documented hand-off instead (to the duplicate-check
collaborator, to a consuming plugin, or into the pending_answer on dispatch).
cliDispose counts rgw_clients_dispose calls, sessDestroy counts
fd_sess_destroy calls, diamFree counts fd_msg_free calls on diam_msg,
paFree counts free(pa) calls. sessCreated / diamCreated record that
rgw_msg_create_base ran successfully, paAlloc that the pending_answer was
allocated, dispatched that fd_msg_send succeeded (so receive_diam_answer will
run for this item), workerBreak that the loop terminated via break
(allocation failure), and pb holds the completeness-check failure counter
when that check was reached. -/
structure Effects where
  msgFree : Nat := 0
  msgTransferred : Bool := false
  cliDispose : Nat := 0
  sessCreated : Bool := false
  sessDestroy : Nat := 0
  diamCreated : Bool := false
  diamFree : Nat := 0
  paAlloc : Bool := false
  paFree : Nat := 0
  dispatched : Bool := false
  workerBreak : Bool := false
  pb : Nat := 0
deriving DecidableEq, Repr

/-- The discard block that the first pipeline gates share:
rgw_msg_free(&msg); rgw_clients_dispose(&cli); continue. -/
def abortDrop : Effects := { msgFree := 1, cliDispose := 1 }

/-- One iteration of the work_th loop body on one dequeued item,
transcribed branch by branch from work_th (rgw_worker.c lines 98 to 227). -/
def work_item_process (o : WorkOutcome) : Effects :=
  if o.authOk = false then abortDrop
  else
    match o.dup with
    | .fail => abortDrop
    | .dup => { msgTransferred := true, cliDispose := 1 }
    | .ok =>
      if o.originOk = false then abortDrop
      else if o.createBaseOk = false then abortDrop
      else
        match o.plgReq with
        | .fail =>
          { msgFree := 1, cliDispose := 1, sessCreated := true, diamCreated := true }
        | .consumed =>
          { msgTransferred := true, cliDispose := 1, sessCreated := true, diamCreated := true }
        | .ok attrRemaining diamPresent parseRulesOk sessionPresent =>
          let pb : Nat :=
            (if diamPresent = false ∨ parseRulesOk = false then 1 else 0) + attrRemaining
          if pb = 0 then
            if o.paMallocOk = false then
              { sessCreated := true, diamCreated := true, workerBreak := true }
            else
              match o.send with
              | .ok =>
                { msgTransferred := true, sessCreated := true, diamCreated := true,
                  paAlloc := true, dispatched := true }
              | .fail diamStillPresent =>
                { msgFree := 1, cliDispose := 1, sessCreated := true, diamCreated := true,
                  sessDestroy := if sessionPresent then 1 else 0,
                  diamFree := if diamStillPresent then 1 else 0,
                  paAlloc := true, paFree := 1 }
          else
            { msgFree := 1, cliDispose := 1, sessCreated := true, diamCreated := true,
              sessDestroy := if sessionPresent then 1 else 0,
              diamFree := if diamPresent then 1 else 0,
              pb := pb }

/-- One top-level AVP of the Diameter answer as seen by the semantic-loss
walk of receive_diam_answer: its M flag, its V flag, and its code. -/
structure Avp where
  mandatory : Bool
  vendor : Bool
  code : Nat
deriving DecidableEq, Repr

/-- Modelled from the spec: the first entry of the small fixed ignore-list of
the semantic-loss check (the code named route-record). The numeric value of
the macro DIAM_ATTR_ROUTE_RECORD lives in a header outside rgw_worker.c; the
standard Diameter code 282 is used. Only its distinctness matters here. -/
def DIAM_ATTR_ROUTE_RECORD : Nat := 282

/-- Modelled from the spec: the second entry of the ignore-list (the code
named proxy-info). The numeric value of the macro DIAM_ATTR_PROXY_INFO lives
in a header outside rgw_worker.c; the standard Diameter code 284 is used. -/
def DIAM_ATTR_PROXY_INFO : Nat := 284

/-- How much one AVP adds to the failure counter pb in the while loop of
receive_diam_answer (rgw_worker.c lines 253 to 276): a mandatory
vendor-flagged AVP adds one; a mandatory plain AVP adds one unless its code
is one of the two switch cases that just break; a non-mandatory AVP adds
nothing. -/
def avpContribution (a : Avp) : Nat :=
  if a.mandatory = true then
    if a.vendor = true then 1
    else
      if a.code = DIAM_ATTR_ROUTE_RECORD then 0
      else if a.code = DIAM_ATTR_PROXY_INFO then 0
      else 1
  else 0

/-- Total added to pb by the walk over the remaining top-level AVPs of the
Diameter answer, in list order as fd_msg_browse yields them. -/
def semanticLossCount : List Avp → Nat
  | [] => 0
  | a :: l => avpContribution a + semanticLossCount l

/-- Outcome of rgw_plg_loop_ans(pa.rad, pa.sess, ans, &rad_ans, pa.cli):
error (fail, modelled as failing before touching rad_ans or the answer), or
success, reporting whether rad_ans is still non-NULL afterwards and whether
the plugins consumed (freed and nulled) the Diameter answer. -/
inductive PlgAnsResult
  | fail
  | ok (radAnsPresent : Bool) (ansConsumed : Bool)
deriving DecidableEq, Repr

/-- The oracle for one run of receive_diam_answer: outcome of
radius_msg_new, outcome of the answer plugin chain, the remaining top-level
AVPs of the Diameter answer, and the outcome of rgw_client_finish_send. The
handler is modelled as entered with pa non-NULL and a non-NULL Diameter
answer, the contract under which freeDiameter invokes the callback. -/
structure AnswerOutcome where
  radAnsNewOk : Bool
  plgAns : PlgAnsResult
  avps : List Avp
  finishSendOk : Bool
deriving DecidableEq, Repr

/-- Counters of what one run of receive_diam_answer did. sessDestroy counts
fd_sess_destroy(&pa.sess) calls, ansFree counts fd_msg_free calls by the
handler on the Diameter answer, ansConsumedByPlugin records that the answer
plugin chain already freed the answer instead, cliDispose counts
rgw_clients_dispose(&pa.cli) calls, paFree counts free(pa) calls, radMsgFree
counts rgw_msg_free calls on pa.rad (the inbound RADIUS message) by the
handler, sendAttempted records that rgw_client_finish_send was invoked, and
pb holds the semantic-loss counter. -/
structure AnsEffects where
  sessDestroy : Nat := 0
  ansFree : Nat := 0
  ansConsumedByPlugin : Bool := false
  cliDispose : Nat := 0
  paFree : Nat := 0
  radMsgFree : Nat := 0
  sendAttempted : Bool := false
  pb : Nat := 0
deriving DecidableEq, Repr

/-- The out block of receive_diam_answer (rgw_worker.c lines 287 to 304):
destroy pa.sess, free the Diameter answer if still present, dispose pa.cli,
free pa. No release of pa.rad appears there or anywhere else in the
function, hence radMsgFree is zero on every path. -/
def ansOut (consumed : Bool) (sent : Bool) (pbv : Nat) : AnsEffects :=
  { sessDestroy := 1,
    ansFree := if consumed then 0 else 1,
    ansConsumedByPlugin := consumed,
    cliDispose := 1,
    paFree := 1,
    radMsgFree := 0,
    sendAttempted := sent,
    pb := pbv }

/-- The body of receive_diam_answer, transcribed branch by branch
(rgw_worker.c lines 244 to 304). If radius_msg_new fails or the answer
plugin chain fails, control goes to out at once. Otherwise the semantic-loss
walk runs: when the plugins consumed the Diameter answer, the initial
fd_msg_browse on the nulled answer fails and adds one to pb; otherwise pb is
the sum of the AVP contributions. Then, if rad_ans is still present,
rgw_client_finish_send is invoked; either way control reaches out. -/
def receive_diam_answer (o : AnswerOutcome) : AnsEffects :=
  if o.radAnsNewOk = false then ansOut false false 0
  else
    match o.plgAns with
    | .fail => ansOut false false 0
    | .ok radAnsPresent ansConsumed =>
      let pbv : Nat := if ansConsumed then 1 else semanticLossCount o.avps
      ansOut ansConsumed radAnsPresent pbv

/-- Total number of releases of the inbound RADIUS message over the life of
one work item whose pipeline run has outcome w and, when it is dispatched,
whose answer run has outcome a. A release is a rgw_msg_free performed by
rgw_worker.c, or the documented ownership hand-off to the duplicate-check
collaborator or to a consuming request plugin. On the dispatched path the
message sits in pa.rad and only receive_diam_answer can still release it. -/
def inboundMsgReleaseCount (w : WorkOutcome) (a : AnswerOutcome) : Nat :=
  let we := work_item_process w
  we.msgFree
    + (if we.msgTransferred = true ∧ we.dispatched = false then 1 else 0)
    + (if we.dispatched = true then (receive_diam_answer a).radMsgFree else 0)

/-- Total number of rgw_clients_dispose calls on the client handle over the
life of one work item: those of the pipeline run plus, when the item was
dispatched, those of the answer run. -/
def clientDisposeCount (w : WorkOutcome) (a : AnswerOutcome) : Nat :=
  let we := work_item_process w
  we.cliDispose + (if we.dispatched = true then (receive_diam_answer a).cliDispose else 0)

/-- The macro NB_WORKERS of rgw_worker.c line 41: the number of worker
threads, a compile-time constant set to 2. -/
def NB_WORKERS : Nat := 2

/-- The worker identifiers that rgw_work_start passes to pthread_create in
its loop (rgw_worker.c lines 317 to 319): 0 up to NB_WORKERS - 1. -/
def rgw_work_start_workers : List Nat := List.range NB_WORKERS

/-- Result of one rgw_work_add call: whether it returned success, the queue
contents afterwards, and how many releases it performed on the message and
the client handle (none appear in the source on any path). Queue entries are
abstract (msg, cli) pairs. -/
structure AddEffects where
  ok : Bool
  queue : List (Nat × Nat)
  msgFree : Nat := 0
  cliDispose : Nat := 0
deriving DecidableEq, Repr

/-- The body of rgw_work_add (rgw_worker.c lines 324 to 337): if malloc of
the work_item fails, CHECK_MALLOC returns an error at once; then the fields
are filled and fd_fifo_post appends the item to work_stack, whose failure
makes CHECK_FCT return an error with nothing enqueued. -/
def rgw_work_add (allocOk postOk : Bool) (msg cli : Nat) (q : List (Nat × Nat)) : AddEffects :=
  if allocOk = false then { ok := false, queue := q }
  else if postOk = false then { ok := false, queue := q }
  else { ok := true, queue := q ++ [(msg, cli)] }

/-- A fully successful pipeline run: every gate passes, the plugins leave a
valid Diameter message and no unconsumed attribute, the pending_answer is
allocated and fd_msg_send succeeds. -/
def allOkWork : WorkOutcome := ⟨true, .ok, true, true, .ok 0 true true true, true, .ok⟩

/-- An answer-handler run in which radius_msg_new fails at once. -/
def ansAllocFail : AnswerOutcome := ⟨false, .fail, [], true⟩

/-- A pipeline run in which the request plugin chain fails right after
rgw_msg_create_base created the session and the skeleton message. -/
def plgReqFailWork : WorkOutcome := ⟨true, .ok, true, true, .fail, true, .ok⟩

/-- A pipeline run that reaches fd_msg_send and has it report immediate
failure, leaving diam_msg in place. -/
def dispatchFailWork : WorkOutcome := ⟨true, .ok, true, true, .ok 0 true true true, true, .fail true⟩

/-- Claim C1: the claim says the InboundMessage and the ClientHandle are each
released exactly once on every exit path of the pipeline and the answer
handler. The code falsifies this for the InboundMessage: receive_diam_answer
never releases pa.rad, so on a dispatched item whose answer handler fails in
reply allocation the message is released zero times, while the client handle
is indeed released exactly once. -/
theorem inbound_message_leaked_on_answer_alloc_failure :
    (work_item_process allOkWork).dispatched = true ∧
    (receive_diam_answer ansAllocFail).radMsgFree = 0 ∧
    inboundMsgReleaseCount allOkWork ansAllocFail = 0 ∧
    clientDisposeCount allOkWork ansAllocFail = 1 := by decide

/-- Claim C2: the claim says a stage failing after the session and skeleton
message exist (in particular the request plugin chain) discards the partial
session and partial outbound message besides releasing the InboundMessage
and ClientHandle. The code falsifies this: on rgw_plg_loop_req failure the
abort block frees only the message and the client reference, and the session
and diam_msg created by rgw_msg_create_base are never destroyed. -/
theorem plugin_failure_leaks_session_and_outbound :
    (work_item_process plgReqFailWork).sessCreated = true ∧
    (work_item_process plgReqFailWork).sessDestroy = 0 ∧
    (work_item_process plgReqFailWork).diamCreated = true ∧
    (work_item_process plgReqFailWork).diamFree = 0 ∧
    (work_item_process plgReqFailWork).msgFree = 1 ∧
    (work_item_process plgReqFailWork).cliDispose = 1 ∧
    (work_item_process plgReqFailWork).dispatched = false := by decide

/-- Claim C3: on an item that reaches the completeness check with k
unconsumed attributes, the failure counter pb equals k plus one more exactly
when diam_msg is absent or fails fd_msg_parse_rules; and whenever pb is
nonzero the item is aborted: the session is destroyed, the outbound message
is freed when present, the InboundMessage and ClientHandle are released, and
no dispatch occurs. -/
theorem completeness_counter_and_abort (k : Nat) (dp po mOk : Bool) (s : SendResult) :
    (work_item_process ⟨true, .ok, true, true, .ok k dp po true, mOk, s⟩).pb
      = k + (if dp = true ∧ po = true then 0 else 1) ∧
    ((work_item_process ⟨true, .ok, true, true, .ok k dp po true, mOk, s⟩).pb ≠ 0 →
      (work_item_process ⟨true, .ok, true, true, .ok k dp po true, mOk, s⟩).sessDestroy = 1 ∧
      (work_item_process ⟨true, .ok, true, true, .ok k dp po true, mOk, s⟩).diamFree
        = (if dp = true then 1 else 0) ∧
      (work_item_process ⟨true, .ok, true, true, .ok k dp po true, mOk, s⟩).msgFree = 1 ∧
      (work_item_process ⟨true, .ok, true, true, .ok k dp po true, mOk, s⟩).cliDispose = 1 ∧
      (work_item_process ⟨true, .ok, true, true, .ok k dp po true, mOk, s⟩).dispatched = false) := by
  cases dp <;> cases po <;> cases mOk <;> cases s <;> cases k <;>
    simp [work_item_process] <;> omega

/-- Witness for claim C3 at k = 1 with a present, valid outbound message:
the counter is 1 and the abort destroys the session. -/
theorem completeness_counter_and_abort_witness :
    (work_item_process ⟨true, .ok, true, true, .ok 1 true true true, true, .ok⟩).pb
      = 1 + (if true = true ∧ true = true then 0 else 1) ∧
    (work_item_process ⟨true, .ok, true, true, .ok 1 true true true, true, .ok⟩).sessDestroy = 1 := by
  refine ⟨(completeness_counter_and_abort 1 true true true .ok).1, ?_⟩
  exact ((completeness_counter_and_abort 1 true true true .ok).2 (by decide)).1

/-- Claim C4: in the semantic-loss walk of the answer handler, a mandatory
vendor-flagged AVP adds one to the unhandled counter; a mandatory plain AVP
whose code is route-record or proxy-info adds nothing; any other mandatory
plain AVP adds one; a non-mandatory AVP never adds anything. -/
theorem answer_walk_mandatory_counting (a : Avp) (l : List Avp) :
    semanticLossCount (a :: l)
      = (if a.mandatory = true ∧
            (a.vendor = true ∨
              (a.code ≠ DIAM_ATTR_ROUTE_RECORD ∧ a.code ≠ DIAM_ATTR_PROXY_INFO))
          then 1 else 0) + semanticLossCount l := by
  rcases a with ⟨m, v, c⟩
  cases m <;> cases v <;>
    simp [semanticLossCount, avpContribution] <;> split_ifs <;> simp_all

/-- Claim C5: a nonzero unhandled-mandatory count in the answer path never
aborts delivery: when the plugin chain produced a reply, the reply is still
handed to rgw_client_finish_send, and the normal out-block releases follow. -/
theorem nonzero_unhandled_count_does_not_abort_delivery (avps : List Avp) (fs : Bool)
    (h : (receive_diam_answer ⟨true, .ok true false, avps, fs⟩).pb ≠ 0) :
    (receive_diam_answer ⟨true, .ok true false, avps, fs⟩).sendAttempted = true ∧
    (receive_diam_answer ⟨true, .ok true false, avps, fs⟩).sessDestroy = 1 := by
  simp [receive_diam_answer, ansOut]

/-- Witness for claim C5: one untranslated mandatory vendor AVP makes the
counter nonzero and the reply is still sent. -/
theorem nonzero_unhandled_count_witness :
    (receive_diam_answer ⟨true, .ok true false, [⟨true, true, 0⟩], true⟩).pb ≠ 0 ∧
    (receive_diam_answer ⟨true, .ok true false, [⟨true, true, 0⟩], true⟩).sendAttempted = true := by
  refine ⟨by decide, ?_⟩
  exact (nonzero_unhandled_count_does_not_abort_delivery [⟨true, true, 0⟩] true (by decide)).1

/-- Claim C6: on every exit path of the answer handler, the session is
destroyed exactly once, the Diameter answer is released exactly once
(either by the handler or already by a consuming answer plugin), the client
reference is disposed exactly once, and the pending_answer context is freed
exactly once. -/
theorem answer_handler_four_releases (o : AnswerOutcome) :
    (receive_diam_answer o).sessDestroy = 1 ∧
    (receive_diam_answer o).ansFree
      + (if (receive_diam_answer o).ansConsumedByPlugin = true then 1 else 0) = 1 ∧
    (receive_diam_answer o).cliDispose = 1 ∧
    (receive_diam_answer o).paFree = 1 := by
  rcases o with ⟨rn, pa, avps, fs⟩
  cases rn <;> rcases pa with _ | ⟨rp, ac⟩ <;> try cases ac
  all_goals simp [receive_diam_answer, ansOut]

/-- Claim C7: when fd_msg_send reports immediate failure, the worker rolls
back inline: the session is destroyed, the outbound message freed, the
InboundMessage and ClientHandle released, the pending_answer context freed,
the item is not dispatched (so the callback never runs for it), and the
worker proceeds to the next item rather than terminating. -/
theorem dispatch_failure_inline_rollback :
    (work_item_process dispatchFailWork).sessDestroy = 1 ∧
    (work_item_process dispatchFailWork).diamFree = 1 ∧
    (work_item_process dispatchFailWork).msgFree = 1 ∧
    (work_item_process dispatchFailWork).cliDispose = 1 ∧
    (work_item_process dispatchFailWork).paFree = 1 ∧
    (work_item_process dispatchFailWork).dispatched = false ∧
    (work_item_process dispatchFailWork).workerBreak = false := by decide

/-- Claim C8: when the duplicate check nulls the message, the pipeline
releases only the ClientHandle and moves on: it performs no rgw_msg_free on
the nulled message, ownership having passed to the collaborator, and no
session or outbound message is ever created for the item. -/
theorem duplicate_marks_release_client_only (orig cb : Bool) (p : PlgReqResult)
    (m : Bool) (s : SendResult) :
    (work_item_process ⟨true, .dup, orig, cb, p, m, s⟩).cliDispose = 1 ∧
    (work_item_process ⟨true, .dup, orig, cb, p, m, s⟩).msgFree = 0 ∧
    (work_item_process ⟨true, .dup, orig, cb, p, m, s⟩).msgTransferred = true ∧
    (work_item_process ⟨true, .dup, orig, cb, p, m, s⟩).sessCreated = false ∧
    (work_item_process ⟨true, .dup, orig, cb, p, m, s⟩).diamCreated = false ∧
    (work_item_process ⟨true, .dup, orig, cb, p, m, s⟩).dispatched = false := by
  simp [work_item_process]

/-- Claim C9: the worker pool is a fixed number NB_WORKERS of worker tasks,
rgw_work_start spawns exactly that many, and the constant (the
configuration surface, a compile-time macro) has default value 2, an
integer greater or equal to 1. -/
theorem worker_pool_size_fixed_two :
    rgw_work_start_workers.length = NB_WORKERS ∧ NB_WORKERS = 2 ∧ 1 ≤ NB_WORKERS := by decide

/-- Claim C10: when allocation of the work_item fails, rgw_work_add returns
an error, performs no release of the message or the client handle, and
leaves the queue unchanged. -/
theorem work_add_alloc_failure_atomic (postOk : Bool) (msg cli : Nat)
    (q : List (Nat × Nat)) :
    (rgw_work_add false postOk msg cli q).ok = false ∧
    (rgw_work_add false postOk msg cli q).queue = q ∧
    (rgw_work_add false postOk msg cli q).msgFree = 0 ∧
    (rgw_work_add false postOk msg cli q).cliDispose = 0 := by
  simp [rgw_work_add]

end RgwWorker
